import Mathlib

/-!
# LANCER Bloodmoney Merc Board — verification of the derived-balance and
purchase-coordination core

Shallow embedding of the server's helper module (`helpers.js`, provided as
`part_007`) and of the money-moving request handlers in `server.js`.

Conventions of the embedding:
* Entity IDs (UUID strings in the source) are modelled as `Nat`.
* JS numbers in the money paths are modelled as `ℤ` (all amounts are
  validated integers, and prices/modifiers are integral in the data);
  where the source divides, the embedding uses exact integer floor/ceil
  divisions that agree with `Math.round`/`Math.ceil` on real numbers.
* ISO date strings are modelled as `ℤ` timestamps (the source only
  compares them through `new Date(...)` subtraction).
* JS objects used as id-keyed maps insert in order with the last write
  winning, which is modelled by looking up the last matching element.
-/

namespace MercBoard

/-- A ledger transaction (`manna.transactions[i]` in the source):
`{id, date, amount, description}`. -/
structure Txn where
  id : Nat
  date : Int
  amount : Int
  description : String
deriving DecidableEq, Repr

/-- A pilot's attached reserve object: `{reserveId, deploymentStatus}`. -/
structure PilotReserve where
  reserveId : Nat
  deploymentStatus : String
deriving DecidableEq, Repr

/-- A pilot record, restricted to the fields the balance/purchase logic
reads: `id`, `name`, `callsign`, `active`, `personalTransactions`,
`reserves`.  A missing/absent `personalTransactions` field is the empty
list. -/
structure Pilot where
  id : Nat
  name : String
  callsign : String
  active : Bool
  personalTransactions : List Nat
  reserves : List PilotReserve
deriving DecidableEq, Repr

/-- `transactionMap[txnId]` where the map is built by
`transactions.forEach(t => { transactionMap[t.id] = t })`: the last
transaction with the given id wins. -/
def txnLookup (transactions : List Txn) (txnId : Nat) : Option Txn :=
  transactions.reverse.find? (fun t => t.id == txnId)

/-- `calculatePilotBalance(pilot, transactions)` from the helper module:
returns `0` for an empty reference list, otherwise sums the amounts of
the transactions that resolve in the map, silently skipping ids that do
not resolve. -/
def calculatePilotBalance (pilot : Pilot) (transactions : List Txn) : Int :=
  if pilot.personalTransactions.isEmpty then 0
  else
    pilot.personalTransactions.foldl
      (fun balance txnId =>
        match txnLookup transactions txnId with
        | some t => balance + t.amount
        | none => balance)
      0

/-- The amount contributed by one referenced transaction id: the
transaction's amount when the id resolves, `0` otherwise. -/
def txnContribution (transactions : List Txn) (txnId : Nat) : Int :=
  match txnLookup transactions txnId with
  | some t => t.amount
  | none => 0

/-- `calculateBalancesFromPilots()` from `server.js` (reads factored out
into arguments): folds over all pilots, adding each pilot's derived
balance to `totalBalance` and, when the pilot is active, to
`activeBalance`.  Returns `(activeBalance, totalBalance)`. -/
def calculateBalancesFromPilots (pilots : List Pilot) (transactions : List Txn) :
    Int × Int :=
  pilots.foldl
    (fun acc pilot =>
      let pilotBalance :=
        pilot.personalTransactions.foldl
          (fun b txnId =>
            match txnLookup transactions txnId with
            | some t => b + t.amount
            | none => b)
          0
      (if pilot.active then acc.1 + pilotBalance else acc.1, acc.2 + pilotBalance))
    (0, 0)

section BalanceLemmas

theorem foldl_txn_add (transactions : List Txn) (l : List Nat) (init : Int) :
    l.foldl
        (fun balance txnId =>
          match txnLookup transactions txnId with
          | some t => balance + t.amount
          | none => balance)
        init
      = init + (l.map (txnContribution transactions)).sum := by
  induction l generalizing init with
  | nil => simp
  | cons i rest ih =>
    simp only [List.foldl_cons, List.map_cons, List.sum_cons]
    rw [ih]
    unfold txnContribution
    cases txnLookup transactions i <;> simp <;> ring

theorem calculatePilotBalance_eq_sum (pilot : Pilot) (transactions : List Txn) :
    calculatePilotBalance pilot transactions
      = (pilot.personalTransactions.map (txnContribution transactions)).sum := by
  unfold calculatePilotBalance
  rcases h : pilot.personalTransactions with _ | ⟨i, rest⟩
  · simp
  · rw [if_neg (by simp)]
    rw [foldl_txn_add]
    simp

theorem txnLookup_append_not_mem (transactions : List Txn) (t : Txn) (i : Nat)
    (h : t.id ≠ i) :
    txnLookup (transactions ++ [t]) i = txnLookup transactions i := by
  unfold txnLookup
  rw [List.reverse_append]
  simp only [List.reverse_cons, List.reverse_nil, List.nil_append, List.cons_append,
    List.nil_append]
  rw [List.find?_cons_of_neg]
  simp [h]

end BalanceLemmas

/-- C1.  The derived balance of a pilot is the sum, over the ids in
`personalTransactions`, of the amount of the resolving ledger transaction
(unresolvable ids contribute `0`); and appending to the ledger a
transaction whose id the pilot does not reference leaves the pilot's
balance unchanged. -/
theorem balance_is_sum_of_referenced_amounts
    (pilot : Pilot) (ledger : List Txn) (t : Txn)
    (h : t.id ∉ pilot.personalTransactions) :
    calculatePilotBalance pilot ledger
        = (pilot.personalTransactions.map (txnContribution ledger)).sum
      ∧ calculatePilotBalance pilot (ledger ++ [t])
        = calculatePilotBalance pilot ledger := by
  refine ⟨calculatePilotBalance_eq_sum pilot ledger, ?_⟩
  rw [calculatePilotBalance_eq_sum, calculatePilotBalance_eq_sum]
  congr 1
  apply List.map_congr_left
  intro i hi
  unfold txnContribution
  rw [txnLookup_append_not_mem]
  intro heq
  exact h (heq ▸ hi)

/-- Concrete instantiation of C1: a pilot referencing transactions 1 and 3
(the latter dangling) against a two-transaction ledger. -/
theorem balance_is_sum_of_referenced_amounts_witness :
    calculatePilotBalance ⟨10, "A", "RA", true, [1, 3], []⟩
          [⟨1, 0, 250, "a"⟩, ⟨2, 0, -40, "b"⟩]
        = ([1, 3].map (txnContribution [⟨1, 0, 250, "a"⟩, ⟨2, 0, -40, "b"⟩])).sum
      ∧ calculatePilotBalance ⟨10, "A", "RA", true, [1, 3], []⟩
          ([⟨1, 0, 250, "a"⟩, ⟨2, 0, -40, "b"⟩] ++ [⟨7, 0, 999, "c"⟩])
        = calculatePilotBalance ⟨10, "A", "RA", true, [1, 3], []⟩
            [⟨1, 0, 250, "a"⟩, ⟨2, 0, -40, "b"⟩] :=
  balance_is_sum_of_referenced_amounts
    ⟨10, "A", "RA", true, [1, 3], []⟩
    [⟨1, 0, 250, "a"⟩, ⟨2, 0, -40, "b"⟩]
    ⟨7, 0, 999, "c"⟩ (by decide)

/-! ## Cost modifier (`applyFacilityCostModifier`)

The source computes `Math.round(price * (1 + clamped/100) / 50) * 50` on
JS numbers.  All prices and modifiers in this system are integral, so the
embedding works on `ℤ`, expressing `Math.round(x)` (= `⌊x + 1/2⌋`) and
`Math.ceil` as exact integer divisions. -/

/-- `Math.round(a / b)` for an integer numerator `a` and positive integer
denominator `b`: rounding half away from zero upward, `⌊a/b + 1/2⌋`. -/
def jsRound (a : Int) (b : Nat) : Int :=
  (2 * a + b) / (2 * b)

/-- `Math.ceil(a / b)` for an integer numerator `a` and positive integer
denominator `b`. -/
def ceilDiv (a : Int) (b : Nat) : Int :=
  -(-a / b)

/-- Server-side `applyFacilityCostModifier(basePrice, modifier)` from the
helper module: negative (or unparsable) price gives `0`; the modifier is
clamped to `[-100, 300]`; the result is the modified price rounded to the
nearest 50.  `price * (1 + clamped/100) / 50 = price * (100 + clamped) / 5000`
exactly. -/
def applyFacilityCostModifier (basePrice modifier : Int) : Int :=
  if basePrice < 0 then 0
  else
    let clampedModifier := max (-100) (min 300 modifier)
    jsRound (basePrice * (100 + clampedModifier)) 5000 * 50

/-- Client-side copy of the formula from `public/js/shared-handlers.js`
(the file duplicates the server implementation line for line). -/
def clientApplyFacilityCostModifier (basePrice modifier : Int) : Int :=
  if basePrice < 0 then 0
  else
    let clampedModifier := max (-100) (min 300 modifier)
    jsRound (basePrice * (100 + clampedModifier)) 5000 * 50

theorem jsRound_eq_round (a : Int) (b : Nat) (hb : 0 < b) :
    jsRound a b = round ((a : ℚ) / (b : ℚ)) := by
  have hbQ : ((b : ℚ)) ≠ 0 := by
    exact_mod_cast Nat.pos_iff_ne_zero.mp hb
  rw [round_eq]
  have hx : (a : ℚ) / (b : ℚ) + 1 / 2
      = ((2 * a + (b : Int) : Int) : ℚ) / ((2 * b : Nat) : ℚ) := by
    push_cast
    field_simp
    ring
  rw [hx, Rat.floor_intCast_div_natCast]
  unfold jsRound
  push_cast
  rfl

theorem ceilDiv_eq_ceil (a : Int) (b : Nat) (hb : 0 < b) :
    ceilDiv a b = ⌈(a : ℚ) / (b : ℚ)⌉ := by
  have hceil : ⌈(a : ℚ) / (b : ℚ)⌉ = -⌊-((a : ℚ) / (b : ℚ))⌋ := rfl
  rw [hceil]
  have hx : -((a : ℚ) / (b : ℚ)) = ((-a : Int) : ℚ) / ((b : Nat) : ℚ) := by
    push_cast
    ring
  rw [hx, Rat.floor_intCast_div_natCast]
  rfl

/-- C3.  For every base price `p ≥ 0` and modifier `m`, the cost-modifier
function equals `round((p * (1 + clamp(m,-100,300)/100)) / 50) * 50`
computed in exact arithmetic, the three documented examples hold, and the
results for modifiers `500`/`-500` coincide with those for `300`/`-100`
(clamping). -/
theorem cost_modifier_rounding (p m : Int) (hp : 0 ≤ p) :
    applyFacilityCostModifier p m
        = round ((p : ℚ) * (1 + max (-100) (min 300 (m : ℚ)) / 100) / 50) * 50
      ∧ applyFacilityCostModifier 1000 (-30) = 700
      ∧ applyFacilityCostModifier 1000 40 = 1400
      ∧ applyFacilityCostModifier 1234 0 = 1250
      ∧ (∀ q : Int, applyFacilityCostModifier q 500 = applyFacilityCostModifier q 300)
      ∧ (∀ q : Int, applyFacilityCostModifier q (-500) = applyFacilityCostModifier q (-100)) := by
  refine ⟨?_, by decide, by decide, by decide, ?_, ?_⟩
  · unfold applyFacilityCostModifier
    rw [if_neg (by omega)]
    have hc : (max (-100) (min 300 (m : ℚ))) = ((max (-100) (min 300 m) : Int) : ℚ) := by
      rw [Int.cast_max, Int.cast_min]
      push_cast
      rfl
    rw [hc]
    set c : Int := max (-100) (min 300 m) with hcdef
    have hx : (p : ℚ) * (1 + (c : ℚ) / 100) / 50
        = ((p * (100 + c) : Int) : ℚ) / ((5000 : Nat) : ℚ) := by
      push_cast
      field_simp
      ring_nf
      exact Or.inl trivial
    rw [hx, ← jsRound_eq_round (p * (100 + c)) 5000 (by norm_num)]
  · intro q
    unfold applyFacilityCostModifier
    norm_num
  · intro q
    unfold applyFacilityCostModifier
    norm_num

/-- Concrete instantiation of C3 at `p = 1234`, `m = 0`. -/
theorem cost_modifier_rounding_witness :
    applyFacilityCostModifier 1234 0
        = round ((1234 : ℚ) * (1 + max (-100) (min 300 (0 : ℚ)) / 100) / 50) * 50
      ∧ applyFacilityCostModifier 1000 (-30) = 700 :=
  ⟨(cost_modifier_rounding 1234 0 (by decide)).1,
   (cost_modifier_rounding 1234 0 (by decide)).2.1⟩

/-- C6.  The server-side cost-modifier function and its client-side copy
are extensionally equal. -/
theorem cost_modifier_server_client_agree :
    ∀ basePrice modifier : Int,
      applyFacilityCostModifier basePrice modifier
        = clientApplyFacilityCostModifier basePrice modifier :=
  fun _ _ => rfl

/-! ## Aggregate transaction history (`getDeduplicatedTransactionHistory`)

The source builds `transactionPilotMap` by iterating the active pilots and,
for each occurrence of a transaction id in a pilot's
`personalTransactions`, pushing that pilot onto the map entry (so one
pilot listing an id twice is pushed twice).  `Object.keys` returns the ids
in first-insertion order.  The enriched rows are then sorted newest-first
by `new Date(b.date) - new Date(a.date)` with JS's stable `Array.sort`;
the embedding uses a stable insertion sort with the same key order. -/

/-- `pilots.filter(pilot => pilot.active)`. -/
def activePilots (pilots : List Pilot) : List Pilot :=
  pilots.filter (·.active)

/-- All (transaction id, pilot) reference pairs produced while iterating
the active pilots and each pilot's `personalTransactions`, in iteration
order and with multiplicity. -/
def activeTxnRefs (pilots : List Pilot) : List (Nat × Pilot) :=
  (activePilots pilots).flatMap
    (fun p => p.personalTransactions.map (fun i => (i, p)))

/-- `transactionPilotMap[txnId]`: the pilots pushed for `txnId`, in push
order, with multiplicity. -/
def relatedPilots (pilots : List Pilot) (txnId : Nat) : List Pilot :=
  (activeTxnRefs pilots).filterMap
    (fun r => if r.1 = txnId then some r.2 else none)

/-- `Object.keys(transactionPilotMap)`: the distinct referenced ids in
first-insertion order. -/
def uniqueTransactionIds (pilots : List Pilot) : List Nat :=
  (activeTxnRefs pilots).foldl
    (fun acc r => if r.1 ∈ acc then acc else acc ++ [r.1]) []

/-- One enriched row of the aggregate feed: the spread transaction plus
`relatedPilots`, `relatedPilotCallsigns` and
`totalAmount = amount * pilotCount`. -/
structure EnrichedTxn where
  id : Nat
  date : Int
  amount : Int
  description : String
  relatedPilots : List Pilot
  relatedPilotCallsigns : List String
  totalAmount : Int
deriving DecidableEq, Repr

/-- The feed's sort key: `a` may precede `b` when `b.date ≤ a.date`
(newest first). -/
def dateDesc (a b : EnrichedTxn) : Prop :=
  b.date ≤ a.date

instance : DecidableRel dateDesc := fun a b => Int.decLe b.date a.date

instance : IsTotal EnrichedTxn dateDesc :=
  ⟨fun a b => le_total b.date a.date⟩

instance : IsTrans EnrichedTxn dateDesc :=
  ⟨fun _ _ _ h1 h2 => le_trans h2 h1⟩

/-- Build one enriched row for a referenced id, or `null` when the id does
not resolve in the ledger. -/
def enrichTxn (pilots : List Pilot) (transactions : List Txn) (txnId : Nat) :
    Option EnrichedTxn :=
  match txnLookup transactions txnId with
  | none => none
  | some t =>
    let rel := relatedPilots pilots txnId
    some
      { id := t.id, date := t.date, amount := t.amount,
        description := t.description,
        relatedPilots := rel,
        relatedPilotCallsigns := rel.map (·.callsign),
        totalAmount := t.amount * rel.length }

/-- `getDeduplicatedTransactionHistory(pilots, transactions, limit)`:
enrich the distinct referenced ids (dropping unresolvable ones), sort
newest-first, then apply the limit when positive (`0` = all). -/
def getDeduplicatedTransactionHistory (pilots : List Pilot)
    (transactions : List Txn) (limit : Nat) : List EnrichedTxn :=
  let enriched :=
    (uniqueTransactionIds pilots).filterMap (enrichTxn pilots transactions)
  let sorted := List.insertionSort dateDesc enriched
  if 0 < limit then sorted.take limit else sorted

section FeedLemmas

theorem txnLookup_some_id {transactions : List Txn} {i : Nat} {t : Txn}
    (h : txnLookup transactions i = some t) : t.id = i := by
  have := List.find?_some h
  simpa using this

theorem enrichTxn_some {pilots : List Pilot} {transactions : List Txn}
    {i : Nat} {e : EnrichedTxn} (h : enrichTxn pilots transactions i = some e) :
    e.id = i
      ∧ e.totalAmount = e.amount * (relatedPilots pilots i).length := by
  unfold enrichTxn at h
  rcases hl : txnLookup transactions i with _ | t
  · rw [hl] at h
    cases h
  · rw [hl] at h
    have hid := txnLookup_some_id hl
    cases h
    exact ⟨hid, rfl⟩

theorem mem_foldl_insert {x : Nat} :
    ∀ (refs : List (Nat × Pilot)) (acc : List Nat),
      x ∈ refs.foldl (fun acc r => if r.1 ∈ acc then acc else acc ++ [r.1]) acc →
        x ∈ acc ∨ x ∈ refs.map Prod.fst := by
  intro refs
  induction refs with
  | nil => intro acc h; exact Or.inl h
  | cons r rest ih =>
    intro acc h
    simp only [List.foldl_cons] at h
    rcases ih _ h with hacc | hrest
    · by_cases hr : r.1 ∈ acc
      · rw [if_pos hr] at hacc
        exact Or.inl hacc
      · rw [if_neg hr] at hacc
        rcases List.mem_append.mp hacc with h1 | h2
        · exact Or.inl h1
        · right
          simp only [List.mem_singleton] at h2
          simp [h2]
    · right
      simp [hrest]

theorem nodup_foldl_insert :
    ∀ (refs : List (Nat × Pilot)) (acc : List Nat), acc.Nodup →
      (refs.foldl (fun acc r => if r.1 ∈ acc then acc else acc ++ [r.1]) acc).Nodup := by
  intro refs
  induction refs with
  | nil => intro acc h; exact h
  | cons r rest ih =>
    intro acc h
    simp only [List.foldl_cons]
    apply ih
    by_cases hr : r.1 ∈ acc
    · rw [if_pos hr]; exact h
    · rw [if_neg hr]
      simp [List.nodup_append, h, hr]

theorem uniqueTransactionIds_nodup (pilots : List Pilot) :
    (uniqueTransactionIds pilots).Nodup :=
  nodup_foldl_insert _ _ List.nodup_nil

theorem mem_uniqueTransactionIds {pilots : List Pilot} {i : Nat}
    (h : i ∈ uniqueTransactionIds pilots) :
    ∃ p, (i, p) ∈ activeTxnRefs pilots := by
  rcases mem_foldl_insert _ _ h with h0 | hm
  · cases h0
  · rcases List.mem_map.mp hm with ⟨r, hr, hfst⟩
    exact ⟨r.2, by simpa [← hfst] using hr⟩

theorem mem_relatedPilots {pilots : List Pilot} {i : Nat} {p : Pilot}
    (h : (i, p) ∈ activeTxnRefs pilots) : p ∈ relatedPilots pilots i := by
  unfold relatedPilots
  exact List.mem_filterMap.mpr ⟨(i, p), h, by simp⟩

theorem enrich_ids_sublist (pilots : List Pilot) (transactions : List Txn) :
    ∀ ids : List Nat,
      ((ids.filterMap (enrichTxn pilots transactions)).map EnrichedTxn.id).Sublist ids := by
  intro ids
  induction ids with
  | nil => simp
  | cons i rest ih =>
    rcases he : enrichTxn pilots transactions i with _ | e
    · simp only [List.filterMap_cons, he]
      exact ih.trans (List.sublist_cons_self i rest)
    · simp only [List.filterMap_cons, he, List.map_cons]
      rw [(enrichTxn_some he).1]
      exact ih.cons₂ i

end FeedLemmas

theorem mem_feed_imp {pilots : List Pilot} {transactions : List Txn}
    {limit : Nat} {e : EnrichedTxn}
    (h : e ∈ getDeduplicatedTransactionHistory pilots transactions limit) :
    ∃ i ∈ uniqueTransactionIds pilots,
      enrichTxn pilots transactions i = some e := by
  unfold getDeduplicatedTransactionHistory at h
  have hs : e ∈ List.insertionSort dateDesc
      ((uniqueTransactionIds pilots).filterMap (enrichTxn pilots transactions)) := by
    by_cases hl : 0 < limit
    · rw [if_pos hl] at h
      exact (List.take_sublist _ _).subset h
    · rw [if_neg hl] at h
      exact h
  have he : e ∈ (uniqueTransactionIds pilots).filterMap
      (enrichTxn pilots transactions) :=
    (List.perm_insertionSort dateDesc _).subset hs
  exact List.mem_filterMap.mp he

/-- C4 (amended).  In the aggregate feed: a transaction referenced by zero
active pilots never appears; each row's `totalAmount` is its `amount`
multiplied by the number of (occurrence-counted) references to it from
active pilots' `personalTransactions`; each distinct transaction appears
at most once; the feed is ordered newest-first by date; and in the shared
example, transaction `-300` referenced by active pilots A and B
contributes `-300` to each pilot's balance while the feed row's
`totalAmount` is `-600`. -/
theorem feed_dedup_and_totals (pilots : List Pilot) (transactions : List Txn)
    (limit : Nat) (txnId : Nat)
    (hzero : relatedPilots pilots txnId = []) :
    (∀ e ∈ getDeduplicatedTransactionHistory pilots transactions limit,
        e.id ≠ txnId)
      ∧ (∀ e ∈ getDeduplicatedTransactionHistory pilots transactions limit,
          e.totalAmount = e.amount * (relatedPilots pilots e.id).length)
      ∧ ((getDeduplicatedTransactionHistory pilots transactions limit).map
          EnrichedTxn.id).Nodup
      ∧ (getDeduplicatedTransactionHistory pilots transactions limit).Pairwise
          dateDesc
      ∧ (calculatePilotBalance ⟨1, "A", "A", true, [5], []⟩ [⟨5, 0, -300, "T"⟩]
            = -300
          ∧ calculatePilotBalance ⟨2, "B", "B", true, [5], []⟩ [⟨5, 0, -300, "T"⟩]
            = -300
          ∧ (getDeduplicatedTransactionHistory
                [⟨1, "A", "A", true, [5], []⟩, ⟨2, "B", "B", true, [5], []⟩]
                [⟨5, 0, -300, "T"⟩] 0).map EnrichedTxn.totalAmount
            = [-600]) := by
  refine ⟨?_, ?_, ?_, ?_, by decide, by decide, by decide⟩
  · intro e he heq
    rcases mem_feed_imp he with ⟨i, hiu, hsome⟩
    have hid := (enrichTxn_some hsome).1
    have hi : i = txnId := by rw [← heq, hid]
    rcases mem_uniqueTransactionIds (hi ▸ hiu) with ⟨p, hp⟩
    have := mem_relatedPilots hp
    rw [hzero] at this
    cases this
  · intro e he
    rcases mem_feed_imp he with ⟨i, _, hsome⟩
    have h1 := (enrichTxn_some hsome).1
    have h2 := (enrichTxn_some hsome).2
    rw [h1]
    exact h2
  · have h1 : (((uniqueTransactionIds pilots).filterMap
        (enrichTxn pilots transactions)).map EnrichedTxn.id).Nodup :=
      (enrich_ids_sublist pilots transactions _).nodup
        (uniqueTransactionIds_nodup pilots)
    have h2 : ((List.insertionSort dateDesc
        ((uniqueTransactionIds pilots).filterMap
          (enrichTxn pilots transactions))).map EnrichedTxn.id).Nodup :=
      (((List.perm_insertionSort dateDesc _).map EnrichedTxn.id).nodup_iff).mpr h1
    unfold getDeduplicatedTransactionHistory
    by_cases hl : 0 < limit
    · rw [if_pos hl]
      exact ((List.take_sublist _ _).map EnrichedTxn.id).nodup h2
    · rw [if_neg hl]
      exact h2
  · have hs : (List.insertionSort dateDesc
        ((uniqueTransactionIds pilots).filterMap
          (enrichTxn pilots transactions))).Pairwise dateDesc :=
      List.sorted_insertionSort dateDesc _
    unfold getDeduplicatedTransactionHistory
    by_cases hl : 0 < limit
    · rw [if_pos hl]
      exact List.Pairwise.sublist (List.take_sublist _ _) hs
    · rw [if_neg hl]
      exact hs

/-- Concrete instantiation of C4's amended statement: one active pilot
referencing transaction 1, with `txnId = 99` referenced by nobody. -/
theorem feed_dedup_and_totals_witness :
    ((getDeduplicatedTransactionHistory [⟨1, "A", "A", true, [1], []⟩]
        [⟨1, 7, 40, "d"⟩] 0).map EnrichedTxn.id).Nodup
      ∧ (getDeduplicatedTransactionHistory [⟨1, "A", "A", true, [1], []⟩]
          [⟨1, 7, 40, "d"⟩] 0).Pairwise dateDesc :=
  ⟨(feed_dedup_and_totals [⟨1, "A", "A", true, [1], []⟩] [⟨1, 7, 40, "d"⟩] 0 99
      (by decide)).2.2.1,
   (feed_dedup_and_totals [⟨1, "A", "A", true, [1], []⟩] [⟨1, 7, 40, "d"⟩] 0 99
      (by decide)).2.2.2.1⟩

/-- Counterexample to C4 as stated: one active pilot lists the same
transaction id twice; the feed row's `totalAmount` is `amount × 2`
(occurrences), while the number of active pilots referencing the
transaction is 1, so `totalAmount ≠ amount × (number of referencing
active pilots)`. -/
theorem feed_totalAmount_occurrences_cex :
    (getDeduplicatedTransactionHistory [⟨1, "A", "A", true, [5, 5], []⟩]
        [⟨5, 0, 100, "t"⟩] 0).map EnrichedTxn.totalAmount = [200]
      ∧ ((activePilots [⟨1, "A", "A", true, [5, 5], []⟩]).filter
          (fun p => 5 ∈ p.personalTransactions)).length = 1
      ∧ (200 : Int) ≠ 100 * 1 := by
  decide

theorem inner_foldl_eq_balance (p : Pilot) (transactions : List Txn) :
    p.personalTransactions.foldl
        (fun b txnId =>
          match txnLookup transactions txnId with
          | some t => b + t.amount
          | none => b)
        0
      = calculatePilotBalance p transactions := by
  rw [foldl_txn_add, calculatePilotBalance_eq_sum]
  simp

theorem calculateBalancesFromPilots_foldl (transactions : List Txn) :
    ∀ (pilots : List Pilot) (acc : Int × Int),
      pilots.foldl
          (fun acc pilot =>
            let pilotBalance :=
              pilot.personalTransactions.foldl
                (fun b txnId =>
                  match txnLookup transactions txnId with
                  | some t => b + t.amount
                  | none => b)
                0
            (if pilot.active then acc.1 + pilotBalance else acc.1,
             acc.2 + pilotBalance))
          acc
        = (acc.1 + ((activePilots pilots).map
              (fun p => calculatePilotBalance p transactions)).sum,
           acc.2 + (pilots.map
              (fun p => calculatePilotBalance p transactions)).sum) := by
  intro pilots
  induction pilots with
  | nil => intro acc; simp [activePilots]
  | cons p rest ih =>
    intro acc
    rw [List.foldl_cons, ih]
    simp only [inner_foldl_eq_balance]
    by_cases hp : p.active
    · simp only [hp, if_true, activePilots, List.filter_cons, List.map_cons,
        List.sum_cons]
      refine Prod.ext ?_ ?_ <;> simp [activePilots] <;> ring
    · simp only [hp, if_false, Bool.false_eq_true, activePilots,
        List.filter_cons, List.map_cons, List.sum_cons]
      refine Prod.ext ?_ ?_ <;> simp [activePilots] <;> ring

/-- C10.  The derived balance counts occurrences: a pilot whose reference
list is `k` copies of one resolving id has balance `k × amount`; balance
is invariant under permutation of `personalTransactions`; deduplicating
the list changes the balance (concrete instance); and the company-wide
aggregation sums per-pilot balances (active and total), hence also counts
occurrences. -/
theorem balance_counts_occurrences
    (pilots : List Pilot) (transactions : List Txn) (p q r : Pilot)
    (k i : Nat) (t : Txn)
    (hperm : p.personalTransactions.Perm q.personalTransactions)
    (hrep : r.personalTransactions = List.replicate k i)
    (hlook : txnLookup transactions i = some t) :
    calculatePilotBalance r transactions = (k : Int) * t.amount
      ∧ calculatePilotBalance p transactions = calculatePilotBalance q transactions
      ∧ (calculatePilotBalance ⟨1, "A", "A", true, [5, 5], []⟩ [⟨5, 0, 100, "t"⟩]
            = 200
          ∧ ([5, 5] : List Nat).dedup = [5]
          ∧ calculatePilotBalance ⟨1, "A", "A", true, [5], []⟩ [⟨5, 0, 100, "t"⟩]
            = 100
          ∧ (200 : Int) ≠ 100)
      ∧ calculateBalancesFromPilots pilots transactions
        = (((activePilots pilots).map
              (fun x => calculatePilotBalance x transactions)).sum,
           (pilots.map (fun x => calculatePilotBalance x transactions)).sum) := by
  refine ⟨?_, ?_, ⟨by decide, by decide, by decide, by decide⟩, ?_⟩
  · rw [calculatePilotBalance_eq_sum, hrep]
    simp [txnContribution, hlook, mul_comm]
  · rw [calculatePilotBalance_eq_sum, calculatePilotBalance_eq_sum]
    exact (hperm.map (txnContribution transactions)).sum_eq
  · unfold calculateBalancesFromPilots
    rw [calculateBalancesFromPilots_foldl]
    simp

/-- Concrete instantiation of C10: pilot `r` lists id 5 twice against a
ledger holding transaction 5 with amount 100; pilots `p`, `q` hold
permuted reference lists. -/
theorem balance_counts_occurrences_witness :
    calculatePilotBalance ⟨3, "R", "R", true, [5, 5], []⟩
          [⟨1, 0, 10, "a"⟩, ⟨2, 0, 20, "b"⟩, ⟨5, 0, 100, "t"⟩]
        = ((2 : Nat) : Int) * 100
      ∧ calculatePilotBalance ⟨4, "P", "P", true, [1, 2], []⟩
            [⟨1, 0, 10, "a"⟩, ⟨2, 0, 20, "b"⟩, ⟨5, 0, 100, "t"⟩]
          = calculatePilotBalance ⟨5, "Q", "Q", false, [2, 1], []⟩
            [⟨1, 0, 10, "a"⟩, ⟨2, 0, 20, "b"⟩, ⟨5, 0, 100, "t"⟩] := by
  have h := balance_counts_occurrences
    [⟨3, "R", "R", true, [5, 5], []⟩]
    [⟨1, 0, 10, "a"⟩, ⟨2, 0, 20, "b"⟩, ⟨5, 0, 100, "t"⟩]
    ⟨4, "P", "P", true, [1, 2], []⟩ ⟨5, "Q", "Q", false, [2, 1], []⟩
    ⟨3, "R", "R", true, [5, 5], []⟩ 2 5 ⟨5, 0, 100, "t"⟩
    (by decide) (by decide) (by decide)
  exact ⟨h.1, h.2.1⟩

/-! ## Server state and the mutating endpoints of `server.js`

Each handler is embedded as a pure function from the collections it reads
(plus the request parameters and the values the source obtains from
`generateId()` / `new Date()`) to a `HandlerOut`: HTTP status, the
`success` flag of the JSON body, the updated collections, and the ordered
trace of persistence writes and SSE broadcasts the handler performs.
Entity ids are UUID strings in the source and therefore never falsy; a
missing/NaN request field is modelled with `Option`. -/

/-- `String.prototype.trim()`: strip leading and trailing whitespace. -/
def jsTrim (s : String) : String :=
  String.mk (((s.data.dropWhile Char.isWhitespace).reverse.dropWhile
    Char.isWhitespace).reverse)

/-- A facility upgrade: `{upgradeName, upgradePrice, upgradeCount, maxPurchases}`. -/
structure Upgrade where
  upgradeName : String
  upgradePrice : Int
  upgradeCount : Nat
  maxPurchases : Nat
deriving DecidableEq, Repr

/-- A Core/Major facility: `{facilityName, facilityPrice, isPurchased, upgrades}`. -/
structure Facility where
  facilityName : String
  facilityPrice : Int
  isPurchased : Bool
  upgrades : List Upgrade
deriving DecidableEq, Repr

/-- One minor facility slot: `{slotNumber, enabled, facilityName, facilityDescription}`
(an unassigned slot has `facilityName = ""`). -/
structure MinorSlot where
  slotNumber : Nat
  enabled : Bool
  facilityName : String
  facilityDescription : String
deriving DecidableEq, Repr

/-- A reserve catalog entry (the fields the procurement flow reads). -/
structure Reserve where
  id : Nat
  name : String
  price : Int
deriving DecidableEq, Repr

/-- A resupply store item. -/
structure ResupplyItem where
  id : Nat
  name : String
  enabled : Bool
  price : Int
deriving DecidableEq, Repr

/-- The store configuration: resupply catalog and current reserve stock. -/
structure StoreConfig where
  resupplyItems : List ResupplyItem
  currentStock : List Nat
deriving DecidableEq, Repr

/-- A job record (the fields the delete endpoint reads). -/
structure Job where
  id : Nat
  name : String
  state : String
deriving DecidableEq, Repr

/-- An entry from `DEFAULT_MINOR_FACILITIES` (loaded from a data file in
the source; passed as a parameter here). -/
structure MinorFacilityOption where
  minorFacilityName : String
  minorFacilityPrice : Int
deriving DecidableEq, Repr

/-- The JSON collections the embedded handlers read and write. -/
structure ServerState where
  jobs : List Job
  facilities : List Facility
  minorSlots : List MinorSlot
  pilots : List Pilot
  transactions : List Txn
  reserves : List Reserve
  storeConfig : StoreConfig
deriving DecidableEq, Repr

/-- Named collections, for the write trace. -/
inductive Collection where
  | jobs
  | facilities
  | minorSlots
  | manna
  | pilots
  | storeConfig
deriving DecidableEq, Repr

/-- One observable side effect of a handler, in program order: a
persistence write (`writeX(...)`) or an SSE broadcast
(`broadcastSSE(channel, ...)`). -/
inductive Event where
  | write (c : Collection)
  | broadcast (channel : String)
deriving DecidableEq, Repr

/-- Result of one embedded handler invocation. -/
structure HandlerOut where
  status : Nat
  success : Bool
  state : ServerState
  events : List Event
deriving DecidableEq, Repr

/-- An early `return res.status(400).json({success:false,...})`: nothing
written, nothing broadcast. -/
def reject (st : ServerState) : HandlerOut :=
  { status := 400, success := false, state := st, events := [] }

/-- An early `return res.status(404).json({success:false,...})`. -/
def notFound (st : ServerState) : HandlerOut :=
  { status := 404, success := false, state := st, events := [] }

/-- `pilots.find(p => p.id === pid)`. -/
def findPilot (pilots : List Pilot) (pid : Nat) : Option Pilot :=
  pilots.find? (fun p => p.id == pid)

/-- `expensePilots.filter(id => !pilots.find(p => p.id === id))`. -/
def invalidPilots (pilots : List Pilot) (expensePilots : List Nat) : List Nat :=
  expensePilots.filter (fun pid => (findPilot pilots pid).isNone)

/-- The names collected by the insufficient-balance loop: for each expense
pilot id that resolves, the pilot's name when the pilot's derived balance
is below the per-pilot cost. -/
def insufficientPilots (pilots : List Pilot) (transactions : List Txn)
    (expensePilots : List Nat) (costPerPilot : Int) : List String :=
  expensePilots.filterMap (fun pid =>
    match findPilot pilots pid with
    | some p =>
      if calculatePilotBalance p transactions < costPerPilot then some p.name
      else none
    | none => none)

/-- Push `txnId` onto the `personalTransactions` of the first pilot whose
id is `pid` (the object `pilots.find(...)` returns and the source
mutates). -/
def pushTxnToPilot : List Pilot → Nat → Nat → List Pilot
  | [], _, _ => []
  | p :: rest, pid, txnId =>
    if p.id = pid then
      { p with personalTransactions := p.personalTransactions ++ [txnId] } :: rest
    else p :: pushTxnToPilot rest pid txnId

/-- `expensePilots.forEach(pilotId => { pilot = pilots.find(...); pilot.personalTransactions.push(txnId) })`. -/
def pushTxnToPilots (pilots : List Pilot) (expensePilots : List Nat)
    (txnId : Nat) : List Pilot :=
  expensePilots.foldl (fun ps pid => pushTxnToPilot ps pid txnId) pilots

/-- Push a reserve object onto the first pilot whose id is `pid`
(the assignee object the source mutates). -/
def pushReserveToPilot : List Pilot → Nat → PilotReserve → List Pilot
  | [], _, _ => []
  | p :: rest, pid, r =>
    if p.id = pid then { p with reserves := p.reserves ++ [r] } :: rest
    else p :: pushReserveToPilot rest pid r

/-- `POST /api/facilities/core-major/:index/purchase`.  `facilityIndex` is
the `parseInt` of the route parameter (`none` = NaN); `modifier` is
`settings.facilityCostModifier || 0`; `newTxnId` and `now` stand for
`generateId()` and the current time. -/
def purchaseCoreMajorFacility (st : ServerState) (facilityIndex : Option Int)
    (expensePilots : List Nat) (modifier : Int) (newTxnId : Nat) (now : Int) :
    HandlerOut :=
  if expensePilots = [] then reject st
  else
    match facilityIndex with
    | none => reject st
    | some idx =>
      if idx < 0 then reject st
      else
        match st.facilities[idx.toNat]? with
        | none => reject st
        | some facility =>
          if facility.isPurchased then reject st
          else if facility.facilityPrice = 0 then reject st
          else if invalidPilots st.pilots expensePilots ≠ [] then reject st
          else
            let modifiedPrice := applyFacilityCostModifier facility.facilityPrice modifier
            let costPerPilot := ceilDiv modifiedPrice expensePilots.length
            if insufficientPilots st.pilots st.transactions expensePilots costPerPilot ≠ [] then
              reject st
            else
              let txn : Txn :=
                { id := newTxnId, date := now, amount := -costPerPilot,
                  description := "Purchased facility: " ++ facility.facilityName }
              { status := 200, success := true,
                state := { st with
                  facilities := st.facilities.set idx.toNat
                    ({ facility with isPurchased := true }),
                  transactions := st.transactions ++ [txn],
                  pilots := pushTxnToPilots st.pilots expensePilots newTxnId },
                events := [.write .facilities, .write .manna, .write .pilots,
                  .broadcast "facilities-core-major", .broadcast "manna",
                  .broadcast "pilots"] }

/-- `POST /api/facilities/core-major/:facilityIndex/upgrades/:upgradeIndex/purchase`. -/
def purchaseFacilityUpgrade (st : ServerState)
    (facilityIndex upgradeIndex : Option Int) (expensePilots : List Nat)
    (modifier : Int) (newTxnId : Nat) (now : Int) : HandlerOut :=
  if expensePilots = [] then reject st
  else
    match facilityIndex with
    | none => reject st
    | some fIdx =>
      if fIdx < 0 then reject st
      else
        match st.facilities[fIdx.toNat]? with
        | none => reject st
        | some facility =>
          if ¬ facility.isPurchased then reject st
          else if facility.upgrades = [] then reject st
          else
            match upgradeIndex with
            | none => reject st
            | some uIdx =>
              if uIdx < 0 then reject st
              else
                match facility.upgrades[uIdx.toNat]? with
                | none => reject st
                | some upgrade =>
                  if upgrade.maxPurchases ≤ upgrade.upgradeCount then reject st
                  else if invalidPilots st.pilots expensePilots ≠ [] then reject st
                  else
                    let modifiedPrice :=
                      applyFacilityCostModifier upgrade.upgradePrice modifier
                    let costPerPilot := ceilDiv modifiedPrice expensePilots.length
                    if insufficientPilots st.pilots st.transactions expensePilots
                        costPerPilot ≠ [] then
                      reject st
                    else
                      let txn : Txn :=
                        { id := newTxnId, date := now, amount := -costPerPilot,
                          description := "Purchased upgrade: " ++ upgrade.upgradeName
                            ++ " for " ++ facility.facilityName }
                      let bumped := { upgrade with upgradeCount := upgrade.upgradeCount + 1 }
                      let updatedFacility :=
                        { facility with upgrades := facility.upgrades.set uIdx.toNat bumped }
                      { status := 200, success := true,
                        state := { st with
                          facilities := st.facilities.set fIdx.toNat updatedFacility,
                          transactions := st.transactions ++ [txn],
                          pilots := pushTxnToPilots st.pilots expensePilots newTxnId },
                        events := [.write .facilities, .write .manna, .write .pilots,
                          .broadcast "facilities-core-major", .broadcast "manna",
                          .broadcast "pilots"] }

/-- `POST /api/facilities/minor-slots/:slotNumber/enable` (slot unlock,
fixed base price 5000). -/
def enableMinorSlot (st : ServerState) (slotNumber : Option Int)
    (expensePilots : List Nat) (modifier : Int) (newTxnId : Nat) (now : Int) :
    HandlerOut :=
  if expensePilots = [] then reject st
  else
    match slotNumber with
    | none => reject st
    | some sn =>
      match st.minorSlots.findIdx? (fun slot => (slot.slotNumber : Int) == sn) with
      | none => reject st
      | some slotIdx =>
        match st.minorSlots[slotIdx]? with
        | none => reject st
        | some slot =>
          if sn < 5 then reject st
          else if slot.enabled then reject st
          else if invalidPilots st.pilots expensePilots ≠ [] then reject st
          else
            let modifiedPrice := applyFacilityCostModifier 5000 modifier
            let costPerPilot := ceilDiv modifiedPrice expensePilots.length
            if insufficientPilots st.pilots st.transactions expensePilots
                costPerPilot ≠ [] then
              reject st
            else
              let txn : Txn :=
                { id := newTxnId, date := now, amount := -costPerPilot,
                  description := "Unlocked minor facility slot " ++ toString sn }
              { status := 200, success := true,
                state := { st with
                  minorSlots := st.minorSlots.set slotIdx ({ slot with enabled := true }),
                  transactions := st.transactions ++ [txn],
                  pilots := pushTxnToPilots st.pilots expensePilots newTxnId },
                events := [.write .minorSlots, .write .manna, .write .pilots,
                  .broadcast "facilities-minor-slots", .broadcast "manna",
                  .broadcast "pilots"] }

/-- `POST /api/facilities/minor-slots/:slotNumber/assign`.  `options`
stands for the `DEFAULT_MINOR_FACILITIES` catalog (loaded from a data
file in the source). -/
def assignMinorSlot (st : ServerState) (slotNumber : Option Int)
    (facilityName : String) (facilityDescription : Option String)
    (expensePilots : List Nat) (options : List MinorFacilityOption)
    (modifier : Int) (newTxnId : Nat) (now : Int) : HandlerOut :=
  if expensePilots = [] then reject st
  else
    match slotNumber with
    | none => reject st
    | some sn =>
      match st.minorSlots.findIdx? (fun slot => (slot.slotNumber : Int) == sn) with
      | none => reject st
      | some slotIdx =>
        match st.minorSlots[slotIdx]? with
        | none => reject st
        | some slot =>
          if ¬ slot.enabled then reject st
          else if slot.facilityName ≠ "" then reject st
          else if jsTrim facilityName = "" then reject st
          else if st.minorSlots.any (fun s =>
              ((s.slotNumber : Int) != sn) && (s.facilityName == facilityName)) then
            reject st
          else
            match options.find? (fun f => f.minorFacilityName == facilityName) with
            | none => reject st
            | some facilityOption =>
              if invalidPilots st.pilots expensePilots ≠ [] then reject st
              else
                let modifiedPrice :=
                  applyFacilityCostModifier facilityOption.minorFacilityPrice modifier
                let costPerPilot := ceilDiv modifiedPrice expensePilots.length
                if insufficientPilots st.pilots st.transactions expensePilots
                    costPerPilot ≠ [] then
                  reject st
                else
                  let txn : Txn :=
                    { id := newTxnId, date := now, amount := -costPerPilot,
                      description := "Purchased minor facility: " ++ facilityName }
                  let assignedSlot :=
                    { slot with
                      facilityName := jsTrim facilityName,
                      facilityDescription := jsTrim (facilityDescription.getD "") }
                  { status := 200, success := true,
                    state := { st with
                      minorSlots := st.minorSlots.set slotIdx assignedSlot,
                      transactions := st.transactions ++ [txn],
                      pilots := pushTxnToPilots st.pilots expensePilots newTxnId },
                    events := [.write .minorSlots, .write .manna, .write .pilots,
                      .broadcast "facilities-minor-slots", .broadcast "manna",
                      .broadcast "pilots"] }

/-- Item resolution for the procurement flow: for `resupply`, the enabled
catalog item with the given id; otherwise the in-stock reserve with the
given id.  `none` leads to a 404. -/
def procurementItem (st : ServerState) (itemId : Nat) (itemType : String) :
    Option (Int × String) :=
  if itemType = "resupply" then
    match st.storeConfig.resupplyItems.find? (fun i => i.id == itemId) with
    | none => none
    | some item => if item.enabled then some (item.price, item.name) else none
  else
    if itemId ∉ st.storeConfig.currentStock then none
    else
      match st.reserves.find? (fun r => r.id == itemId) with
      | none => none
      | some item => some (item.price, item.name)

/-- `POST /api/procurement/purchase`.  Note the write order of the
success path in the source: `writeManna`, `writePilots`,
`writeStoreConfig`, then the broadcasts. -/
def procurementPurchase (st : ServerState) (itemId : Option Nat)
    (itemType : String) (expensePilots : List Nat) (assignee : Option Nat)
    (newTxnId : Nat) (now : Int) : HandlerOut :=
  match itemId with
  | none => reject st
  | some itemId =>
    if itemType = "" then reject st
    else if expensePilots = [] then reject st
    else if itemType ≠ "reserve" ∧ itemType ≠ "resupply" then reject st
    else
      match assignee with
      | none => reject st
      | some assignee =>
        match procurementItem st itemId itemType with
        | none => notFound st
        | some (price, itemName) =>
          if invalidPilots st.pilots expensePilots ≠ [] then reject st
          else
            match findPilot st.pilots assignee with
            | none => reject st
            | some assigneePilot =>
              if price ≤ 0 then reject st
              else
                let costPerPilot := ceilDiv price expensePilots.length
                if insufficientPilots st.pilots st.transactions expensePilots
                    costPerPilot ≠ [] then
                  reject st
                else
                  let txn : Txn :=
                    { id := newTxnId, date := now, amount := -costPerPilot,
                      description := "Purchased " ++ itemName ++ " for "
                        ++ assigneePilot.name }
                  let pilotsCharged := pushTxnToPilots st.pilots expensePilots newTxnId
                  if itemType = "reserve" then
                    { status := 200, success := true,
                      state := { st with
                        transactions := st.transactions ++ [txn],
                        pilots := pushReserveToPilot pilotsCharged assignee
                          ⟨itemId, "In Reserve"⟩,
                        storeConfig := { st.storeConfig with
                          currentStock := st.storeConfig.currentStock.erase itemId } },
                      events := [.write .manna, .write .pilots, .write .storeConfig,
                        .broadcast "manna", .broadcast "pilots",
                        .broadcast "store-config", .broadcast "reserves"] }
                  else
                    { status := 200, success := true,
                      state := { st with
                        transactions := st.transactions ++ [txn],
                        pilots := pilotsCharged },
                      events := [.write .manna, .write .pilots, .write .storeConfig,
                        .broadcast "manna", .broadcast "pilots",
                        .broadcast "store-config"] }

section HandlerCases

theorem purchaseCoreMajorFacility_cases (st : ServerState) (fIdx : Option Int)
    (payers : List Nat) (modifier : Int) (newTxnId : Nat) (now : Int)
    (out : HandlerOut)
    (h : purchaseCoreMajorFacility st fIdx payers modifier newTxnId now = out) :
    out = reject st
    ∨ ∃ idx : Int, ∃ facility : Facility,
        fIdx = some idx ∧ ¬ idx < 0
        ∧ st.facilities[idx.toNat]? = some facility
        ∧ insufficientPilots st.pilots st.transactions payers
            (ceilDiv (applyFacilityCostModifier facility.facilityPrice modifier)
              payers.length) = []
        ∧ out
          = { status := 200, success := true,
              state := { st with
                facilities := st.facilities.set idx.toNat
                  ({ facility with isPurchased := true }),
                transactions := st.transactions ++
                  [{ id := newTxnId, date := now,
                     amount := -(ceilDiv
                       (applyFacilityCostModifier facility.facilityPrice modifier)
                       payers.length),
                     description := "Purchased facility: " ++ facility.facilityName }],
                pilots := pushTxnToPilots st.pilots payers newTxnId },
              events := [.write .facilities, .write .manna, .write .pilots,
                .broadcast "facilities-core-major", .broadcast "manna",
                .broadcast "pilots"] } := by
  unfold purchaseCoreMajorFacility at h
  split at h
  · exact Or.inl h.symm
  · split at h
    · exact Or.inl h.symm
    · next idx =>
      split at h
      · exact Or.inl h.symm
      · next hneg =>
        split at h
        · exact Or.inl h.symm
        · next facility heq =>
          split at h
          · exact Or.inl h.symm
          · split at h
            · exact Or.inl h.symm
            · split at h
              · exact Or.inl h.symm
              · dsimp only at h
                split at h
                · exact Or.inl h.symm
                · next hins =>
                  right
                  exact ⟨idx, facility, rfl, hneg, heq, not_not.mp hins, h.symm⟩

theorem purchaseFacilityUpgrade_cases (st : ServerState)
    (fIdx uIdx : Option Int) (payers : List Nat) (modifier : Int)
    (newTxnId : Nat) (now : Int) (out : HandlerOut)
    (h : purchaseFacilityUpgrade st fIdx uIdx payers modifier newTxnId now = out) :
    out = reject st
    ∨ ∃ fi ui : Int, ∃ facility : Facility, ∃ upgrade : Upgrade,
        fIdx = some fi ∧ uIdx = some ui
        ∧ st.facilities[fi.toNat]? = some facility
        ∧ facility.upgrades[ui.toNat]? = some upgrade
        ∧ insufficientPilots st.pilots st.transactions payers
            (ceilDiv (applyFacilityCostModifier upgrade.upgradePrice modifier)
              payers.length) = []
        ∧ out
          = { status := 200, success := true,
              state := { st with
                facilities := st.facilities.set fi.toNat
                  ({ facility with
                     upgrades := facility.upgrades.set ui.toNat
                       ({ upgrade with upgradeCount := upgrade.upgradeCount + 1 }) }),
                transactions := st.transactions ++
                  [{ id := newTxnId, date := now,
                     amount := -(ceilDiv
                       (applyFacilityCostModifier upgrade.upgradePrice modifier)
                       payers.length),
                     description := "Purchased upgrade: " ++ upgrade.upgradeName
                       ++ " for " ++ facility.facilityName }],
                pilots := pushTxnToPilots st.pilots payers newTxnId },
              events := [.write .facilities, .write .manna, .write .pilots,
                .broadcast "facilities-core-major", .broadcast "manna",
                .broadcast "pilots"] } := by
  unfold purchaseFacilityUpgrade at h
  split at h
  · exact Or.inl h.symm
  · split at h
    · exact Or.inl h.symm
    · next fi =>
      split at h
      · exact Or.inl h.symm
      · split at h
        · exact Or.inl h.symm
        · next facility hfeq =>
          split at h
          · exact Or.inl h.symm
          · split at h
            · exact Or.inl h.symm
            · split at h
              · exact Or.inl h.symm
              · next ui =>
                split at h
                · exact Or.inl h.symm
                · split at h
                  · exact Or.inl h.symm
                  · next upgrade hueq =>
                    split at h
                    · exact Or.inl h.symm
                    · split at h
                      · exact Or.inl h.symm
                      · dsimp only at h
                        split at h
                        · exact Or.inl h.symm
                        · next hins =>
                          right
                          exact ⟨fi, ui, facility, upgrade, rfl, rfl, hfeq, hueq,
                            not_not.mp hins, h.symm⟩

theorem enableMinorSlot_cases (st : ServerState) (slotNumber : Option Int)
    (payers : List Nat) (modifier : Int) (newTxnId : Nat) (now : Int)
    (out : HandlerOut)
    (h : enableMinorSlot st slotNumber payers modifier newTxnId now = out) :
    out = reject st
    ∨ ∃ sn : Int, ∃ slotIdx : Nat, ∃ slot : MinorSlot,
        slotNumber = some sn
        ∧ st.minorSlots.findIdx? (fun s => (s.slotNumber : Int) == sn) = some slotIdx
        ∧ st.minorSlots[slotIdx]? = some slot
        ∧ insufficientPilots st.pilots st.transactions payers
            (ceilDiv (applyFacilityCostModifier 5000 modifier) payers.length) = []
        ∧ out
          = { status := 200, success := true,
              state := { st with
                minorSlots := st.minorSlots.set slotIdx ({ slot with enabled := true }),
                transactions := st.transactions ++
                  [{ id := newTxnId, date := now,
                     amount := -(ceilDiv (applyFacilityCostModifier 5000 modifier)
                       payers.length),
                     description := "Unlocked minor facility slot " ++ toString sn }],
                pilots := pushTxnToPilots st.pilots payers newTxnId },
              events := [.write .minorSlots, .write .manna, .write .pilots,
                .broadcast "facilities-minor-slots", .broadcast "manna",
                .broadcast "pilots"] } := by
  unfold enableMinorSlot at h
  split at h
  · exact Or.inl h.symm
  · split at h
    · exact Or.inl h.symm
    · next sn =>
      split at h
      · exact Or.inl h.symm
      · next slotIdx hfind =>
        split at h
        · exact Or.inl h.symm
        · next slot hslot =>
          split at h
          · exact Or.inl h.symm
          · split at h
            · exact Or.inl h.symm
            · split at h
              · exact Or.inl h.symm
              · dsimp only at h
                split at h
                · exact Or.inl h.symm
                · next hins =>
                  right
                  exact ⟨sn, slotIdx, slot, rfl, hfind, hslot, not_not.mp hins,
                    h.symm⟩

theorem assignMinorSlot_cases (st : ServerState) (slotNumber : Option Int)
    (facilityName : String) (facilityDescription : Option String)
    (payers : List Nat) (options : List MinorFacilityOption) (modifier : Int)
    (newTxnId : Nat) (now : Int) (out : HandlerOut)
    (h : assignMinorSlot st slotNumber facilityName facilityDescription payers
        options modifier newTxnId now = out) :
    out = reject st
    ∨ ∃ sn : Int, ∃ slotIdx : Nat, ∃ slot : MinorSlot,
        ∃ facilityOption : MinorFacilityOption,
        slotNumber = some sn
        ∧ st.minorSlots.findIdx? (fun s => (s.slotNumber : Int) == sn) = some slotIdx
        ∧ st.minorSlots[slotIdx]? = some slot
        ∧ options.find? (fun f => f.minorFacilityName == facilityName)
            = some facilityOption
        ∧ insufficientPilots st.pilots st.transactions payers
            (ceilDiv (applyFacilityCostModifier facilityOption.minorFacilityPrice
              modifier) payers.length) = []
        ∧ out
          = { status := 200, success := true,
              state := { st with
                minorSlots := st.minorSlots.set slotIdx
                  ({ slot with
                     facilityName := jsTrim facilityName,
                     facilityDescription := jsTrim (facilityDescription.getD "") }),
                transactions := st.transactions ++
                  [{ id := newTxnId, date := now,
                     amount := -(ceilDiv
                       (applyFacilityCostModifier facilityOption.minorFacilityPrice
                         modifier) payers.length),
                     description := "Purchased minor facility: " ++ facilityName }],
                pilots := pushTxnToPilots st.pilots payers newTxnId },
              events := [.write .minorSlots, .write .manna, .write .pilots,
                .broadcast "facilities-minor-slots", .broadcast "manna",
                .broadcast "pilots"] } := by
  unfold assignMinorSlot at h
  split at h
  · exact Or.inl h.symm
  · split at h
    · exact Or.inl h.symm
    · next sn =>
      split at h
      · exact Or.inl h.symm
      · next slotIdx hfind =>
        split at h
        · exact Or.inl h.symm
        · next slot hslot =>
          split at h
          · exact Or.inl h.symm
          · split at h
            · exact Or.inl h.symm
            · split at h
              · exact Or.inl h.symm
              · split at h
                · exact Or.inl h.symm
                · split at h
                  · exact Or.inl h.symm
                  · next facilityOption hopt =>
                    split at h
                    · exact Or.inl h.symm
                    · dsimp only at h
                      split at h
                      · exact Or.inl h.symm
                      · next hins =>
                        right
                        exact ⟨sn, slotIdx, slot, facilityOption, rfl, hfind,
                          hslot, hopt, not_not.mp hins, h.symm⟩

theorem procurementPurchase_cases (st : ServerState) (itemId : Option Nat)
    (itemType : String) (payers : List Nat) (assignee : Option Nat)
    (newTxnId : Nat) (now : Int) (out : HandlerOut)
    (h : procurementPurchase st itemId itemType payers assignee newTxnId now = out) :
    out = reject st
    ∨ out = notFound st
    ∨ ∃ iid aid : Nat, ∃ price : Int, ∃ itemName : String, ∃ assigneePilot : Pilot,
        itemId = some iid ∧ assignee = some aid
        ∧ procurementItem st iid itemType = some (price, itemName)
        ∧ findPilot st.pilots aid = some assigneePilot
        ∧ insufficientPilots st.pilots st.transactions payers
            (ceilDiv price payers.length) = []
        ∧ ((itemType = "reserve"
            ∧ out
              = { status := 200, success := true,
                  state := { st with
                    transactions := st.transactions ++
                      [{ id := newTxnId, date := now,
                         amount := -(ceilDiv price payers.length),
                         description := "Purchased " ++ itemName ++ " for "
                           ++ assigneePilot.name }],
                    pilots := pushReserveToPilot
                      (pushTxnToPilots st.pilots payers newTxnId) aid
                      ⟨iid, "In Reserve"⟩,
                    storeConfig := { st.storeConfig with
                      currentStock := st.storeConfig.currentStock.erase iid } },
                  events := [.write .manna, .write .pilots, .write .storeConfig,
                    .broadcast "manna", .broadcast "pilots",
                    .broadcast "store-config", .broadcast "reserves"] })
          ∨ (¬ itemType = "reserve"
            ∧ out
              = { status := 200, success := true,
                  state := { st with
                    transactions := st.transactions ++
                      [{ id := newTxnId, date := now,
                         amount := -(ceilDiv price payers.length),
                         description := "Purchased " ++ itemName ++ " for "
                           ++ assigneePilot.name }],
                    pilots := pushTxnToPilots st.pilots payers newTxnId },
                  events := [.write .manna, .write .pilots, .write .storeConfig,
                    .broadcast "manna", .broadcast "pilots",
                    .broadcast "store-config"] })) := by
  unfold procurementPurchase at h
  split at h
  · exact Or.inl h.symm
  · next iid =>
    split at h
    · exact Or.inl h.symm
    · split at h
      · exact Or.inl h.symm
      · split at h
        · exact Or.inl h.symm
        · split at h
          · exact Or.inl h.symm
          · next aid =>
            split at h
            · exact Or.inr (Or.inl h.symm)
            · next price itemName hitem =>
              split at h
              · exact Or.inl h.symm
              · split at h
                · exact Or.inl h.symm
                · next assigneePilot hap =>
                  split at h
                  · exact Or.inl h.symm
                  · dsimp only at h
                    split at h
                    · exact Or.inl h.symm
                    · next hins =>
                      right; right
                      refine ⟨iid, aid, price, itemName, assigneePilot, rfl, rfl,
                        hitem, hap, not_not.mp hins, ?_⟩
                      split at h
                      · next hres => exact Or.inl ⟨hres, h.symm⟩
                      · next hres => exact Or.inr ⟨hres, h.symm⟩

end HandlerCases
/-- The `amount` field of a `POST /api/manna/transaction` body as the
handler observes it after
`Number.isInteger(rawAmount) ? rawAmount : parseInt(rawAmount, 10)`:
an integer value; a non-integer numeric whose decimal representation
`parseInt` truncates to its integer part (e.g. `3.7 ↦ 3`); or a value
that parses to `NaN`. -/
inductive RawAmount where
  | intVal (n : Int)
  | fracVal (intPart : Int)
  | nan
deriving DecidableEq, Repr

/-- The result of the source's integer coercion of the raw amount
(`none` = `NaN`). -/
def parseAmount : RawAmount → Option Int
  | .intVal n => some n
  | .fracVal intPart => some intPart
  | .nan => none

/-- `POST /api/manna/transaction`: validate the amount (integer-coerced,
non-zero) and description; default an omitted/empty pilot-id list to all
active pilots, otherwise require every supplied id to resolve; append the
new transaction to the ledger and its id to each targeted pilot.
`pilotIds = []` models both an omitted and an empty list (the source
treats them identically). -/
def postMannaTransaction (st : ServerState) (rawAmount : RawAmount)
    (description : String) (pilotIds : List Nat) (newTxnId : Nat) (now : Int) :
    HandlerOut :=
  match parseAmount rawAmount with
  | none => reject st
  | some amount =>
    if amount = 0 then reject st
    else if jsTrim description = "" then reject st
    else
      let go := fun (pids : List Nat) =>
        let txn : Txn :=
          { id := newTxnId, date := now, amount := amount,
            description := jsTrim description }
        let updatedPilots := st.pilots.any (fun p => p.id ∈ pids)
        { status := 200, success := true,
          state := { st with
            transactions := st.transactions ++ [txn],
            pilots := st.pilots.map (fun p =>
              if p.id ∈ pids then
                { p with personalTransactions := p.personalTransactions ++ [newTxnId] }
              else p) },
          events := [Event.write .manna]
            ++ (if updatedPilots then [Event.write .pilots] else [])
            ++ [Event.broadcast "manna"]
            ++ (if updatedPilots then [Event.broadcast "pilots"] else []) }
      if pilotIds = [] then go ((st.pilots.filter (fun p => p.active)).map (fun p => p.id))
      else if pilotIds.filter (fun i => i ∉ st.pilots.map (fun p => p.id)) ≠ [] then
        reject st
      else go pilotIds

/-- `DELETE /api/jobs/:id`: filters the job list unconditionally and
responds `{success:true}` whether or not a job with that id existed. -/
def deleteJob (st : ServerState) (jobId : Nat) : HandlerOut :=
  { status := 200, success := true,
    state := { st with jobs := st.jobs.filter (fun j => j.id != jobId) },
    events := [.write .jobs, .broadcast "jobs"] }

/-- `DELETE /api/manna/transaction/:id`: 404 when the transaction is not
found; otherwise remove it from the ledger, prune it from every pilot's
`personalTransactions`, and write/broadcast accordingly. -/
def deleteMannaTransaction (st : ServerState) (txnId : Nat) : HandlerOut :=
  match st.transactions.findIdx? (fun t => t.id == txnId) with
  | none => notFound st
  | some idx =>
    let pilotsUpdated := st.pilots.any (fun p => p.personalTransactions.contains txnId)
    { status := 200, success := true,
      state := { st with
        transactions := st.transactions.eraseIdx idx,
        pilots := st.pilots.map (fun p =>
          if p.personalTransactions.contains txnId then
            { p with personalTransactions :=
                p.personalTransactions.filter (fun i => i != txnId) }
          else p) },
      events := [Event.write .manna]
        ++ (if pilotsUpdated then [Event.write .pilots, Event.broadcast "pilots"]
            else [])
        ++ [Event.broadcast "manna"] }

/-! ## SSE broadcast hub (`broadcastSSE`) -/

/-- A connected SSE subscriber; `fails` says whether `client.write` will
throw for this broadcast. -/
structure SSEClient where
  id : Nat
  fails : Bool
deriving DecidableEq, Repr

/-- One iteration of `sseClients.forEach`: try to write; on error, delete
the client from the set; on success, record the delivery. -/
def broadcastStep (acc : List SSEClient × List Nat) (c : SSEClient) :
    List SSEClient × List Nat :=
  if c.fails then (acc.1.erase c, acc.2) else (acc.1, acc.2 ++ [c.id])

/-- `broadcastSSE(eventType, data)`: iterate over the subscriber set,
writing to each; a client whose write throws is removed from the set.
Returns the surviving subscriber set and the ids of the clients that
received the message. -/
def broadcastSSE (clients : List SSEClient) : List SSEClient × List Nat :=
  clients.foldl broadcastStep (clients, [])

/-- Some payer in the expense list resolves to a pilot whose current
derived balance is strictly below the per-pilot share. -/
def somePayerInsufficient (st : ServerState) (payers : List Nat)
    (share : Int) : Prop :=
  ∃ pid ∈ payers, ∃ p, findPilot st.pilots pid = some p
    ∧ calculatePilotBalance p st.transactions < share

theorem insufficient_ne_nil {st : ServerState} {payers : List Nat}
    {share : Int} (h : somePayerInsufficient st payers share) :
    insufficientPilots st.pilots st.transactions payers share ≠ [] := by
  rcases h with ⟨pid, hmem, p, hfind, hlt⟩
  intro hnil
  unfold insufficientPilots at hnil
  rw [List.filterMap_eq_nil_iff] at hnil
  have := hnil pid hmem
  rw [hfind] at this
  simp [hlt] at this

/-- A small concrete server state used to instantiate the handler
theorems: facility "Barracks" (price 1000, one upgrade), minor slots 5
(locked) and 6 (unlocked), pilots A (balance 100) and B (balance 40),
a reserve in stock and an enabled resupply item. -/
def exampleState : ServerState :=
  { jobs := [⟨1, "Job", "Pending"⟩],
    facilities := [⟨"Barracks", 1000, false, [⟨"Bunks", 500, 0, 2⟩]⟩],
    minorSlots := [⟨5, false, "", ""⟩, ⟨6, true, "", ""⟩],
    pilots := [⟨1, "A", "A", true, [10], []⟩, ⟨2, "B", "B", true, [11], []⟩],
    transactions := [⟨10, 0, 100, "seed A"⟩, ⟨11, 0, 40, "seed B"⟩],
    reserves := [⟨7, "Medkit", 100⟩],
    storeConfig := ⟨[⟨8, "Ammo", true, 60⟩], [7]⟩ }

/-- C2.  For every split purchase — Core/Major facility, facility
upgrade, minor-slot enable, minor-slot assign, procurement — the
per-pilot share is `ceil(modifiedPrice / payerCount)`, and whenever some
payer's current derived balance is strictly below that share, the
operation leaves every collection unchanged and reports failure (no
partial effect); on success the single appended ledger transaction
debits exactly the share. -/
theorem split_purchase_all_or_nothing (st : ServerState) (payers : List Nat)
    (modifier : Int) (newTxnId : Nat) (now : Int) :
    (∀ (idx : Nat) (facility : Facility),
        st.facilities[idx]? = some facility →
        somePayerInsufficient st payers
          (ceilDiv (applyFacilityCostModifier facility.facilityPrice modifier)
            payers.length) →
        purchaseCoreMajorFacility st (some (idx : Int)) payers modifier
            newTxnId now
          = reject st)
    ∧ (∀ (fi ui : Nat) (facility : Facility) (upgrade : Upgrade),
        st.facilities[fi]? = some facility →
        facility.upgrades[ui]? = some upgrade →
        somePayerInsufficient st payers
          (ceilDiv (applyFacilityCostModifier upgrade.upgradePrice modifier)
            payers.length) →
        purchaseFacilityUpgrade st (some (fi : Int)) (some (ui : Int)) payers
            modifier newTxnId now
          = reject st)
    ∧ (∀ (slotNumber : Option Int),
        somePayerInsufficient st payers
          (ceilDiv (applyFacilityCostModifier 5000 modifier) payers.length) →
        enableMinorSlot st slotNumber payers modifier newTxnId now = reject st)
    ∧ (∀ (slotNumber : Option Int) (facilityName : String)
          (facilityDescription : Option String)
          (options : List MinorFacilityOption)
          (facilityOption : MinorFacilityOption),
        options.find? (fun f => f.minorFacilityName == facilityName)
            = some facilityOption →
        somePayerInsufficient st payers
          (ceilDiv (applyFacilityCostModifier facilityOption.minorFacilityPrice
            modifier) payers.length) →
        assignMinorSlot st slotNumber facilityName facilityDescription payers
            options modifier newTxnId now
          = reject st)
    ∧ (∀ (iid aid : Nat) (itemType : String) (price : Int) (itemName : String),
        procurementItem st iid itemType = some (price, itemName) →
        somePayerInsufficient st payers (ceilDiv price payers.length) →
        (procurementPurchase st (some iid) itemType payers (some aid) newTxnId
              now).success = false
          ∧ (procurementPurchase st (some iid) itemType payers (some aid)
              newTxnId now).state = st
          ∧ (procurementPurchase st (some iid) itemType payers (some aid)
              newTxnId now).events = [])
    ∧ (∀ (idx : Nat) (facility : Facility),
        st.facilities[idx]? = some facility →
        (purchaseCoreMajorFacility st (some (idx : Int)) payers modifier
            newTxnId now).success = true →
        (purchaseCoreMajorFacility st (some (idx : Int)) payers modifier
            newTxnId now).state.transactions
          = st.transactions ++
            [{ id := newTxnId, date := now,
               amount := -(ceilDiv
                 (applyFacilityCostModifier facility.facilityPrice modifier)
                 payers.length),
               description := "Purchased facility: " ++ facility.facilityName }]) := by
  refine ⟨?_, ?_, ?_, ?_, ?_, ?_⟩
  · intro idx facility hget hins
    rcases purchaseCoreMajorFacility_cases st (some (idx : Int)) payers modifier
        newTxnId now _ rfl with hrej | ⟨idx', facility', hsome, _, hget', hempty, _⟩
    · exact hrej
    · exfalso
      obtain rfl : (idx : Int) = idx' := Option.some.inj hsome
      rw [Int.toNat_natCast] at hget'
      rw [hget] at hget'
      obtain rfl : facility = facility' := Option.some.inj hget'
      exact insufficient_ne_nil hins hempty
  · intro fi ui facility upgrade hfget huget hins
    rcases purchaseFacilityUpgrade_cases st (some (fi : Int)) (some (ui : Int))
        payers modifier newTxnId now _ rfl with
      hrej | ⟨fi', ui', facility', upgrade', hfsome, husome, hfget', huget', hempty, _⟩
    · exact hrej
    · exfalso
      obtain rfl : (fi : Int) = fi' := Option.some.inj hfsome
      obtain rfl : (ui : Int) = ui' := Option.some.inj husome
      rw [Int.toNat_natCast] at hfget' huget'
      rw [hfget] at hfget'
      obtain rfl : facility = facility' := Option.some.inj hfget'
      rw [huget] at huget'
      obtain rfl : upgrade = upgrade' := Option.some.inj huget'
      exact insufficient_ne_nil hins hempty
  · intro slotNumber hins
    rcases enableMinorSlot_cases st slotNumber payers modifier newTxnId now _ rfl
      with hrej | ⟨sn, slotIdx, slot, _, _, _, hempty, _⟩
    · exact hrej
    · exact absurd hempty (insufficient_ne_nil hins)
  · intro slotNumber facilityName facilityDescription options facilityOption
      hopt hins
    rcases assignMinorSlot_cases st slotNumber facilityName facilityDescription
        payers options modifier newTxnId now _ rfl with
      hrej | ⟨sn, slotIdx, slot, facilityOption', _, _, _, hopt', hempty, _⟩
    · exact hrej
    · exfalso
      rw [hopt] at hopt'
      obtain rfl : facilityOption = facilityOption' := Option.some.inj hopt'
      exact insufficient_ne_nil hins hempty
  · intro iid aid itemType price itemName hitem hins
    rcases procurementPurchase_cases st (some iid) itemType payers (some aid)
        newTxnId now _ rfl with
      hrej | hnf | ⟨iid', aid', price', itemName', ap, hid, _, hitem', _, hempty, _⟩
    · rw [hrej]
      exact ⟨rfl, rfl, rfl⟩
    · rw [hnf]
      exact ⟨rfl, rfl, rfl⟩
    · exfalso
      obtain rfl : iid = iid' := Option.some.inj hid
      rw [hitem] at hitem'
      have hpair : (price, itemName) = (price', itemName') := Option.some.inj hitem'
      obtain rfl : price = price' := congrArg Prod.fst hpair
      exact insufficient_ne_nil hins hempty
  · intro idx facility hget hsucc
    rcases purchaseCoreMajorFacility_cases st (some (idx : Int)) payers modifier
        newTxnId now _ rfl with hrej | ⟨idx', facility', hsome, _, hget', _, hout⟩
    · rw [hrej] at hsucc
      cases hsucc
    · obtain rfl : (idx : Int) = idx' := Option.some.inj hsome
      rw [Int.toNat_natCast] at hget'
      rw [hget] at hget'
      obtain rfl : facility = facility' := Option.some.inj hget'
      rw [hout]

/-- Concrete instantiation of C2: splitting the 1000-cost facility across
pilots A (balance 100) and B (balance 40) — share 500 — is rejected with
no state change. -/
theorem split_purchase_all_or_nothing_witness :
    purchaseCoreMajorFacility exampleState (some ((0 : Nat) : Int)) [1, 2] 0 99 5
      = reject exampleState :=
  (split_purchase_all_or_nothing exampleState [1, 2] 0 99 5).1 0
    ⟨"Barracks", 1000, false, [⟨"Bunks", 500, 0, 2⟩]⟩ (by decide)
    ⟨1, List.mem_cons_self 1 [2], ⟨1, "A", "A", true, [10], []⟩, by decide,
      by decide⟩

/-- Whether a trace event is a persistence write (as opposed to an SSE
broadcast). -/
def isWriteEvent : Event → Bool
  | .write _ => true
  | .broadcast _ => false

/-- C5 (amended).  In every locked multi-step mutation, all persistence
writes precede all broadcasts (the trace is the write prefix followed by
the broadcast suffix), and the writes occur in a fixed per-endpoint
order: facility and upgrade purchases write facilities, ledger, pilots;
minor-slot enable/assign write minor slots, ledger, pilots; the
procurement purchase writes ledger, pilots, store config (the item
collection last, not first). -/
theorem locked_write_order (st : ServerState) (payers : List Nat)
    (modifier : Int) (newTxnId : Nat) (now : Int) :
    (∀ fIdx : Option Int,
      (purchaseCoreMajorFacility st fIdx payers modifier newTxnId now).events
          = (purchaseCoreMajorFacility st fIdx payers modifier newTxnId
              now).events.filter isWriteEvent
            ++ (purchaseCoreMajorFacility st fIdx payers modifier newTxnId
              now).events.filter (fun e => !(isWriteEvent e))
        ∧ ((purchaseCoreMajorFacility st fIdx payers modifier newTxnId
              now).events.filter isWriteEvent = []
          ∨ (purchaseCoreMajorFacility st fIdx payers modifier newTxnId
              now).events.filter isWriteEvent
            = [.write .facilities, .write .manna, .write .pilots]))
    ∧ (∀ fIdx uIdx : Option Int,
      (purchaseFacilityUpgrade st fIdx uIdx payers modifier newTxnId now).events
          = (purchaseFacilityUpgrade st fIdx uIdx payers modifier newTxnId
              now).events.filter isWriteEvent
            ++ (purchaseFacilityUpgrade st fIdx uIdx payers modifier newTxnId
              now).events.filter (fun e => !(isWriteEvent e))
        ∧ ((purchaseFacilityUpgrade st fIdx uIdx payers modifier newTxnId
              now).events.filter isWriteEvent = []
          ∨ (purchaseFacilityUpgrade st fIdx uIdx payers modifier newTxnId
              now).events.filter isWriteEvent
            = [.write .facilities, .write .manna, .write .pilots]))
    ∧ (∀ slotNumber : Option Int,
      (enableMinorSlot st slotNumber payers modifier newTxnId now).events
          = (enableMinorSlot st slotNumber payers modifier newTxnId
              now).events.filter isWriteEvent
            ++ (enableMinorSlot st slotNumber payers modifier newTxnId
              now).events.filter (fun e => !(isWriteEvent e))
        ∧ ((enableMinorSlot st slotNumber payers modifier newTxnId
              now).events.filter isWriteEvent = []
          ∨ (enableMinorSlot st slotNumber payers modifier newTxnId
              now).events.filter isWriteEvent
            = [.write .minorSlots, .write .manna, .write .pilots]))
    ∧ (∀ (slotNumber : Option Int) (facilityName : String)
          (facilityDescription : Option String)
          (options : List MinorFacilityOption),
      (assignMinorSlot st slotNumber facilityName facilityDescription payers
          options modifier newTxnId now).events
          = (assignMinorSlot st slotNumber facilityName facilityDescription
              payers options modifier newTxnId now).events.filter isWriteEvent
            ++ (assignMinorSlot st slotNumber facilityName facilityDescription
              payers options modifier newTxnId now).events.filter
                (fun e => !(isWriteEvent e))
        ∧ ((assignMinorSlot st slotNumber facilityName facilityDescription
              payers options modifier newTxnId now).events.filter
                isWriteEvent = []
          ∨ (assignMinorSlot st slotNumber facilityName facilityDescription
              payers options modifier newTxnId now).events.filter isWriteEvent
            = [.write .minorSlots, .write .manna, .write .pilots]))
    ∧ (∀ (itemId : Option Nat) (itemType : String) (assignee : Option Nat),
      (procurementPurchase st itemId itemType payers assignee newTxnId
          now).events
          = (procurementPurchase st itemId itemType payers assignee newTxnId
              now).events.filter isWriteEvent
            ++ (procurementPurchase st itemId itemType payers assignee newTxnId
              now).events.filter (fun e => !(isWriteEvent e))
        ∧ ((procurementPurchase st itemId itemType payers assignee newTxnId
              now).events.filter isWriteEvent = []
          ∨ (procurementPurchase st itemId itemType payers assignee newTxnId
              now).events.filter isWriteEvent
            = [.write .manna, .write .pilots, .write .storeConfig])) := by
  refine ⟨?_, ?_, ?_, ?_, ?_⟩
  · intro fIdx
    rcases purchaseCoreMajorFacility_cases st fIdx payers modifier newTxnId now
        _ rfl with hrej | ⟨_, _, _, _, _, _, hout⟩
    · rw [hrej]
      exact ⟨rfl, Or.inl rfl⟩
    · rw [hout]
      exact ⟨rfl, Or.inr rfl⟩
  · intro fIdx uIdx
    rcases purchaseFacilityUpgrade_cases st fIdx uIdx payers modifier newTxnId
        now _ rfl with hrej | ⟨_, _, _, _, _, _, _, _, _, hout⟩
    · rw [hrej]
      exact ⟨rfl, Or.inl rfl⟩
    · rw [hout]
      exact ⟨rfl, Or.inr rfl⟩
  · intro slotNumber
    rcases enableMinorSlot_cases st slotNumber payers modifier newTxnId now
        _ rfl with hrej | ⟨_, _, _, _, _, _, _, hout⟩
    · rw [hrej]
      exact ⟨rfl, Or.inl rfl⟩
    · rw [hout]
      exact ⟨rfl, Or.inr rfl⟩
  · intro slotNumber facilityName facilityDescription options
    rcases assignMinorSlot_cases st slotNumber facilityName facilityDescription
        payers options modifier newTxnId now _ rfl with
      hrej | ⟨_, _, _, _, _, _, _, _, _, hout⟩
    · rw [hrej]
      exact ⟨rfl, Or.inl rfl⟩
    · rw [hout]
      exact ⟨rfl, Or.inr rfl⟩
  · intro itemId itemType assignee
    rcases procurementPurchase_cases st itemId itemType payers assignee newTxnId
        now _ rfl with hrej | hnf | ⟨_, _, _, _, _, _, _, _, _, _, hres⟩
    · rw [hrej]
      exact ⟨rfl, Or.inl rfl⟩
    · rw [hnf]
      exact ⟨rfl, Or.inl rfl⟩
    · rcases hres with ⟨_, hout⟩ | ⟨_, hout⟩
      · rw [hout]
        exact ⟨rfl, Or.inr rfl⟩
      · rw [hout]
        exact ⟨rfl, Or.inr rfl⟩

/-- Counterexample to C5 as stated: a successful procurement purchase
writes the ledger, then pilots, then the store configuration — the item
collection comes last, not first as the claim's fixed order requires. -/
theorem procurement_write_order_cex :
    (procurementPurchase exampleState (some 8) "resupply" [1, 2] (some 1)
        99 5).success = true
      ∧ (procurementPurchase exampleState (some 8) "resupply" [1, 2] (some 1)
          99 5).events.filter isWriteEvent
        = [.write .manna, .write .pilots, .write .storeConfig]
      ∧ (procurementPurchase exampleState (some 8) "resupply" [1, 2] (some 1)
          99 5).events.filter isWriteEvent
        ≠ [.write .storeConfig, .write .manna, .write .pilots] := by
  decide

/-- C7 (amended).  Deleting a nonexistent ledger transaction responds 404
with no state change and no side effects; deleting a nonexistent job,
however, responds 200 `{success:true}` (the handler filters
unconditionally and never 404s) — the collections are still left
unchanged, though the jobs collection is rewritten and broadcast as-is. -/
theorem delete_not_found_behaviour (st : ServerState) (txnId jobId : Nat)
    (htxn : st.transactions.findIdx? (fun t => t.id == txnId) = none)
    (hjob : jobId ∉ st.jobs.map Job.id) :
    deleteMannaTransaction st txnId = notFound st
      ∧ deleteJob st jobId
        = { status := 200, success := true, state := st,
            events := [.write .jobs, .broadcast "jobs"] } := by
  constructor
  · unfold deleteMannaTransaction
    rw [htxn]
  · unfold deleteJob
    have hfilter : st.jobs.filter (fun j => j.id != jobId) = st.jobs := by
      rw [List.filter_eq_self]
      intro j hj
      simp only [ne_eq, bne_iff_ne]
      intro heq
      exact hjob (heq ▸ List.mem_map_of_mem Job.id hj)
    rw [hfilter]

/-- Concrete instantiation of C7's amended statement at `exampleState`
with nonexistent ids. -/
theorem delete_not_found_behaviour_witness :
    deleteMannaTransaction exampleState 99 = notFound exampleState
      ∧ deleteJob exampleState 99
        = { status := 200, success := true, state := exampleState,
            events := [.write .jobs, .broadcast "jobs"] } :=
  delete_not_found_behaviour exampleState 99 99 (by decide) (by decide)

/-- Counterexample to C7 as stated: `DELETE /api/jobs/:id` for a
nonexistent job id responds with HTTP 200 and `{success:true}`, not 404
(the collections are unchanged). -/
theorem delete_job_no_404_cex :
    99 ∉ exampleState.jobs.map Job.id
      ∧ (deleteJob exampleState 99).status = 200
      ∧ (deleteJob exampleState 99).status ≠ 404
      ∧ (deleteJob exampleState 99).success = true
      ∧ (deleteJob exampleState 99).state = exampleState := by
  decide

theorem mem_activeIds_iff {pilots : List Pilot}
    (hnodup : (pilots.map (fun q => q.id)).Nodup) {p : Pilot}
    (hp : p ∈ pilots) :
    p.id ∈ (pilots.filter (fun q => q.active)).map (fun q => q.id)
      ↔ p.active = true := by
  constructor
  · intro hmem
    rcases List.mem_map.mp hmem with ⟨q, hqmem, hqid⟩
    have hq := List.mem_filter.mp hqmem
    have heq : q = p := List.inj_on_of_nodup_map hnodup hq.1 hp hqid
    exact heq ▸ hq.2
  · intro hact
    exact List.mem_map.mpr ⟨p, List.mem_filter.mpr ⟨hp, hact⟩, rfl⟩

/-- C8 (amended).  `POST /api/manna/transaction` rejects (with no state
change) an amount that fails integer coercion (`NaN`) or coerces to zero
— but a non-integer numeric is truncated by `parseInt` and accepted, not
rejected; a non-empty pilot-id list containing an unresolvable id is
rejected with no state change; and when the pilot-id list is omitted or
empty the new transaction's id is appended to exactly the active pilots
(given the data-model invariant that pilot ids are unique). -/
theorem manna_transaction_validation (st : ServerState) (newTxnId : Nat)
    (now : Int) (amount : Int) (description : String) (pilotIds : List Nat)
    (ra : RawAmount)
    (hzero : parseAmount ra = some 0)
    (hne : pilotIds ≠ [])
    (hbad : ∃ i ∈ pilotIds, i ∉ st.pilots.map (fun p => p.id))
    (hnodup : (st.pilots.map (fun q => q.id)).Nodup)
    (hamount : amount ≠ 0)
    (hdesc : jsTrim description ≠ "") :
    postMannaTransaction st .nan description pilotIds newTxnId now = reject st
      ∧ postMannaTransaction st ra description pilotIds newTxnId now = reject st
      ∧ postMannaTransaction st (.intVal amount) description pilotIds newTxnId now
          = reject st
      ∧ (postMannaTransaction st (.intVal amount) description [] newTxnId
          now).success = true
      ∧ (postMannaTransaction st (.intVal amount) description [] newTxnId
          now).state.transactions
        = st.transactions ++ [⟨newTxnId, now, amount, jsTrim description⟩]
      ∧ (postMannaTransaction st (.intVal amount) description [] newTxnId
          now).state.pilots
        = st.pilots.map (fun p =>
            if p.active then
              { p with personalTransactions := p.personalTransactions ++ [newTxnId] }
            else p) := by
  have hfilter : pilotIds.filter
      (fun i => i ∉ st.pilots.map (fun p => p.id)) ≠ [] := by
    rcases hbad with ⟨i, hi, hnot⟩
    intro hnil
    rw [List.filter_eq_nil_iff] at hnil
    have hdec := hnil i hi
    simp only [decide_eq_true_eq] at hdec
    exact hdec hnot
  refine ⟨rfl, ?_, ?_, ?_, ?_, ?_⟩
  · cases ra with
    | intVal n =>
      have hn : n = 0 := by simpa [parseAmount] using hzero
      subst hn
      simp [postMannaTransaction, parseAmount]
    | fracVal n =>
      have hn : n = 0 := by simpa [parseAmount] using hzero
      subst hn
      simp [postMannaTransaction, parseAmount]
    | nan => rfl
  · unfold postMannaTransaction parseAmount
    dsimp only
    rw [if_neg hamount, if_neg hdesc, if_neg hne, if_pos hfilter]
  · unfold postMannaTransaction parseAmount
    dsimp only
    rw [if_neg hamount, if_neg hdesc, if_pos rfl]
  · unfold postMannaTransaction parseAmount
    dsimp only
    rw [if_neg hamount, if_neg hdesc, if_pos rfl]
  · unfold postMannaTransaction parseAmount
    dsimp only
    rw [if_neg hamount, if_neg hdesc, if_pos rfl]
    dsimp only
    apply List.map_congr_left
    intro p hp
    by_cases hact : p.active
    · rw [if_pos ((mem_activeIds_iff hnodup hp).mpr hact), if_pos hact]
    · have hnotmem : p.id ∉ (st.pilots.filter (fun q => q.active)).map
          (fun q => q.id) := by
        intro hmem
        exact hact ((mem_activeIds_iff hnodup hp).mp hmem)
      rw [if_neg hnotmem, if_neg hact]

/-- Concrete instantiation of C8's amended statement at `exampleState`. -/
theorem manna_transaction_validation_witness :
    postMannaTransaction exampleState .nan "pay" [3] 99 5 = reject exampleState
      ∧ (postMannaTransaction exampleState (.intVal 50) "pay" [] 99 5).state.pilots
        = exampleState.pilots.map (fun p =>
            if p.active then
              { p with personalTransactions := p.personalTransactions ++ [99] }
            else p) := by
  have h := manna_transaction_validation exampleState 99 5 50 "pay" [3]
    (.intVal 0) (by decide) (by decide) ⟨3, by decide, by decide⟩ (by decide)
    (by decide) (by decide)
  exact ⟨h.1, h.2.2.2.2.2⟩

/-- Counterexample to C8 as stated: a non-integer amount (`3.7`, whose
`parseInt` truncation is 3) is accepted — the handler stores amount 3 and
succeeds instead of rejecting the request. -/
theorem manna_fractional_amount_accepted_cex :
    (postMannaTransaction exampleState (.fracVal 3) "x" [] 99 5).success = true
      ∧ (postMannaTransaction exampleState (.fracVal 3) "x" [] 99 5).state.transactions
        = exampleState.transactions ++ [⟨99, 5, 3, "x"⟩] := by
  decide

section BroadcastLemmas

theorem broadcast_foldl (pending : List SSEClient) :
    ∀ (s : List SSEClient) (d : List Nat),
      pending.foldl broadcastStep (s, d)
        = (s.diff (pending.filter (fun c => c.fails)),
           d ++ (pending.filter (fun c => !c.fails)).map SSEClient.id) := by
  induction pending with
  | nil => intro s d; simp
  | cons c rest ih =>
    intro s d
    rw [List.foldl_cons]
    by_cases hc : c.fails
    · simp only [broadcastStep, if_pos hc]
      rw [ih]
      simp [List.filter_cons, hc, List.diff_cons]
    · simp only [broadcastStep, if_neg hc]
      rw [ih]
      simp [List.filter_cons, hc]

theorem cons_diff_of_ne (c : SSEClient) :
    ∀ (l₂ l₁ : List SSEClient), (∀ x ∈ l₂, x ≠ c) →
      (c :: l₁).diff l₂ = c :: l₁.diff l₂ := by
  intro l₂
  induction l₂ with
  | nil => intro l₁ _; rfl
  | cons x t ih =>
    intro l₁ hx
    have hcx : ¬(c == x) = true := by
      simp only [beq_iff_eq]
      intro h
      exact hx x (List.mem_cons_self x t) h.symm
    rw [List.diff_cons, List.erase_cons_tail hcx,
      ih (l₁.erase x) (fun y hy => hx y (List.mem_cons_of_mem x hy)),
      ← List.diff_cons]

theorem diff_filter_fails (s : List SSEClient) :
    s.diff (s.filter (fun c => c.fails)) = s.filter (fun c => !c.fails) := by
  induction s with
  | nil => rfl
  | cons c rest ih =>
    by_cases hc : c.fails
    · have h1 : (c :: rest).filter (fun x => x.fails)
          = c :: rest.filter (fun x => x.fails) :=
        List.filter_cons_of_pos hc
      rw [h1, List.diff_cons, List.erase_cons_head, ih,
        List.filter_cons_of_neg (by simp [hc])]
    · have h1 : (c :: rest).filter (fun x => x.fails)
          = rest.filter (fun x => x.fails) :=
        List.filter_cons_of_neg (by simpa using hc)
      rw [h1, cons_diff_of_ne c _ rest ?hne, ih,
        List.filter_cons_of_pos (by simp [hc])]
      case hne =>
        intro x hxmem heq
        have := (List.mem_filter.mp hxmem).2
        rw [heq] at this
        exact hc this

end BroadcastLemmas

/-- C9.  When `broadcastSSE` runs over a subscriber set in which some
clients fail on write: every failing subscriber is removed from the set,
every non-failing subscriber receives the message, and the run completes
normally with the surviving set being exactly the non-failing
subscribers (no crash propagates to the triggering request). -/
theorem broadcast_failure_isolation (clients : List SSEClient)
    (c : SSEClient) (hc : c ∈ clients) :
    (c.fails = true → c ∉ (broadcastSSE clients).1)
      ∧ (c.fails = false → c.id ∈ (broadcastSSE clients).2)
      ∧ (broadcastSSE clients).1 = clients.filter (fun x => !x.fails)
      ∧ (broadcastSSE clients).2
        = (clients.filter (fun x => !x.fails)).map SSEClient.id := by
  have hrun : broadcastSSE clients
      = (clients.filter (fun x => !x.fails),
         (clients.filter (fun x => !x.fails)).map SSEClient.id) := by
    unfold broadcastSSE
    rw [broadcast_foldl clients clients [], diff_filter_fails]
    rfl
  refine ⟨?_, ?_, by rw [hrun], by rw [hrun]⟩
  · intro hfail hmem
    rw [hrun] at hmem
    have := (List.mem_filter.mp hmem).2
    rw [hfail] at this
    cases this
  · intro hok
    rw [hrun]
    exact List.mem_map.mpr ⟨c, List.mem_filter.mpr ⟨hc, by rw [hok]; rfl⟩, rfl⟩

/-- Concrete instantiation of C9: three subscribers of which the second
fails on write; it is removed and the other two receive the message. -/
theorem broadcast_failure_isolation_witness :
    (⟨2, true⟩ : SSEClient) ∉ (broadcastSSE [⟨1, false⟩, ⟨2, true⟩, ⟨3, false⟩]).1
      ∧ (1 : Nat) ∈ (broadcastSSE [⟨1, false⟩, ⟨2, true⟩, ⟨3, false⟩]).2
      ∧ (3 : Nat) ∈ (broadcastSSE [⟨1, false⟩, ⟨2, true⟩, ⟨3, false⟩]).2 :=
  ⟨(broadcast_failure_isolation [⟨1, false⟩, ⟨2, true⟩, ⟨3, false⟩] ⟨2, true⟩
      (by decide)).1 rfl,
   (broadcast_failure_isolation [⟨1, false⟩, ⟨2, true⟩, ⟨3, false⟩] ⟨1, false⟩
      (by decide)).2.1 rfl,
   (broadcast_failure_isolation [⟨1, false⟩, ⟨2, true⟩, ⟨3, false⟩] ⟨3, false⟩
      (by decide)).2.1 rfl⟩

end MercBoard
